import Mathlib

/-!
Verification development for the defi-risk-guardian backend.

Numeric code is embedded over the rationals (Python floats are modelled as
exact real arithmetic); stateful endpoints are embedded as explicit state
passing over record types mirroring the ORM rows; fallible code returns
Except.  Sources embedded here:

* app/services/ai_portfolio_analyzer.py  (risk metrics, prediction)
* app/services/cache.py                  (CacheService)
* app/api/v1/rebalance.py                (suggest / execute rebalancing)
* app/api/v1/portfolio/validators.py     (validate_stellar_address)
* app/api/v1/portfolio/services.py       (PortfolioService.delete_asset)
-/

/-- Portfolio asset record from ai_portfolio_analyzer.PortfolioAsset. -/
structure PortfolioAsset where
  asset_code : String
  asset_issuer : Option String
  balance : ℚ
  current_price : ℚ
  current_value : ℚ
  allocation : ℚ
  volatility : ℚ
  beta : ℚ
  correlation_xlm : ℚ
deriving DecidableEq

/-- The correlation matrix built in _calculate_portfolio_volatility_with_correlations:
np.eye gives the diagonal 1, and each off-diagonal entry is overwritten with
avg_corr * 0.7 where avg_corr is the mean of the two assets' correlation_xlm. -/
def corrMatrix (assets : List PortfolioAsset) (i j : Fin assets.length) : ℚ :=
  if i = j then 1
  else ((assets.get i).correlation_xlm + (assets.get j).correlation_xlm) / 2 * (7/10)

/-- covariance_matrix = np.outer(volatilities, volatilities) * correlation_matrix. -/
def covMatrix (assets : List PortfolioAsset) (i j : Fin assets.length) : ℚ :=
  (assets.get i).volatility * (assets.get j).volatility * corrMatrix assets i j

/-- portfolio_variance = np.dot(weights, np.dot(covariance_matrix, weights)). -/
def portfolioVariance (assets : List PortfolioAsset) : ℚ :=
  ∑ i : Fin assets.length,
    (assets.get i).allocation *
      (∑ j : Fin assets.length, covMatrix assets i j * (assets.get j).allocation)

/-- _calculate_portfolio_volatility_with_correlations: for at most one asset the
answer is that asset's volatility (0.2 for the empty list); otherwise
np.sqrt(max(portfolio_variance, 0)). -/
noncomputable def portfolioVolatilityWithCorrelations (assets : List PortfolioAsset) : ℝ :=
  if assets.length ≤ 1 then
    ((match assets with
      | [] => (1/5 : ℚ)
      | a :: _ => a.volatility) : ℚ)
  else Real.sqrt ((max (portfolioVariance assets) 0 : ℚ) : ℝ)

/-- The spec's covariance matrix: S_ij = sigma_i * sigma_j * C_ij with C_ii = 1 and,
for i distinct from j, C_ij = 0.7 * (corr_xlm_i + corr_xlm_j) / 2. -/
def specCovMatrix (assets : List PortfolioAsset) (i j : Fin assets.length) : ℚ :=
  (assets.get i).volatility * (assets.get j).volatility *
    (if i = j then 1
     else (7/10) * (((assets.get i).correlation_xlm + (assets.get j).correlation_xlm) / 2))

/-- The spec's quadratic form w^T S w over the allocation weights. -/
def specVariance (assets : List PortfolioAsset) : ℚ :=
  ∑ i : Fin assets.length, ∑ j : Fin assets.length,
    (assets.get i).allocation * specCovMatrix assets i j * (assets.get j).allocation

lemma specCovMatrix_eq (assets : List PortfolioAsset) (i j : Fin assets.length) :
    specCovMatrix assets i j = covMatrix assets i j := by
  unfold specCovMatrix covMatrix corrMatrix
  by_cases h : i = j
  · simp only [if_pos h]
  · simp only [if_neg h]
    ring

lemma specVariance_eq (assets : List PortfolioAsset) :
    specVariance assets = portfolioVariance assets := by
  unfold specVariance portfolioVariance
  refine Finset.sum_congr rfl (fun i _ => ?_)
  rw [Finset.mul_sum]
  refine Finset.sum_congr rfl (fun j _ => ?_)
  rw [specCovMatrix_eq]
  ring

lemma portfolioVolatilityWithCorrelations_nonneg (assets : List PortfolioAsset)
    (h : ∀ a ∈ assets, 0 ≤ a.volatility) :
    0 ≤ portfolioVolatilityWithCorrelations assets := by
  match assets, h with
  | [], _ =>
      unfold portfolioVolatilityWithCorrelations
      norm_num
  | [a], h =>
      unfold portfolioVolatilityWithCorrelations
      rw [if_pos (by simp)]
      exact_mod_cast h a (List.mem_cons_self a _)
  | a :: b :: rest, h =>
      unfold portfolioVolatilityWithCorrelations
      rw [if_neg (by simp)]
      exact Real.sqrt_nonneg _

/-- C1 (as stated) is falsified by the single-asset branch: a one-element list
whose asset carries a negative volatility field is returned unchanged, so the
result is negative. -/
theorem portfolio_volatility_negative_single_asset :
    portfolioVolatilityWithCorrelations
      [{ asset_code := "XLM", asset_issuer := none, balance := 1, current_price := 1,
         current_value := 1, allocation := 1, volatility := -1, beta := 1,
         correlation_xlm := 1 }] < 0 := by
  unfold portfolioVolatilityWithCorrelations
  norm_num

/-- C1 (amended): _calculate_portfolio_volatility_with_correlations returns 0.2 for
the empty list, the asset's own volatility for a single asset, and
sqrt(max(w^T S w, 0)) for two or more assets, where S is the spec's
correlation-weighted covariance matrix; the result is non-negative whenever
every asset's volatility is non-negative (for two or more assets, and for the
empty list, it is non-negative unconditionally). -/
theorem portfolio_volatility_with_correlations_spec (assets : List PortfolioAsset) :
    (assets = [] → portfolioVolatilityWithCorrelations assets = ((1/5 : ℚ) : ℝ))
    ∧ (∀ a, assets = [a] → portfolioVolatilityWithCorrelations assets = (a.volatility : ℝ))
    ∧ (2 ≤ assets.length →
        portfolioVolatilityWithCorrelations assets
          = Real.sqrt ((max (specVariance assets) 0 : ℚ) : ℝ))
    ∧ ((∀ a ∈ assets, 0 ≤ a.volatility) → 0 ≤ portfolioVolatilityWithCorrelations assets) := by
  refine ⟨?_, ?_, ?_, ?_⟩
  · rintro rfl
    unfold portfolioVolatilityWithCorrelations
    norm_num
  · rintro a rfl
    unfold portfolioVolatilityWithCorrelations
    norm_num
  · intro h
    unfold portfolioVolatilityWithCorrelations
    rw [if_neg (by omega), specVariance_eq]
  · exact portfolioVolatilityWithCorrelations_nonneg assets

/-- Witness for C1 at a concrete two-asset portfolio. -/
theorem portfolio_volatility_with_correlations_spec_witness :
    (2 ≤ ([{ asset_code := "XLM", asset_issuer := none, balance := 1, current_price := 1,
             current_value := 1, allocation := 1/2, volatility := 1/5, beta := 1,
             correlation_xlm := 1 },
           { asset_code := "BTC", asset_issuer := none, balance := 1, current_price := 1,
             current_value := 1, allocation := 1/2, volatility := 2/5, beta := 1,
             correlation_xlm := 7/10 }] : List PortfolioAsset).length)
    ∧ portfolioVolatilityWithCorrelations
        [{ asset_code := "XLM", asset_issuer := none, balance := 1, current_price := 1,
           current_value := 1, allocation := 1/2, volatility := 1/5, beta := 1,
           correlation_xlm := 1 },
         { asset_code := "BTC", asset_issuer := none, balance := 1, current_price := 1,
           current_value := 1, allocation := 1/2, volatility := 2/5, beta := 1,
           correlation_xlm := 7/10 }]
        = Real.sqrt ((max (specVariance
            [{ asset_code := "XLM", asset_issuer := none, balance := 1, current_price := 1,
               current_value := 1, allocation := 1/2, volatility := 1/5, beta := 1,
               correlation_xlm := 1 },
             { asset_code := "BTC", asset_issuer := none, balance := 1, current_price := 1,
               current_value := 1, allocation := 1/2, volatility := 2/5, beta := 1,
               correlation_xlm := 7/10 }]) 0 : ℚ) : ℝ) :=
  ⟨by decide,
   (portfolio_volatility_with_correlations_spec _).2.2.1 (by decide)⟩

/-- total_value = sum of asset.current_value over the portfolio. -/
def totalValue (assets : List PortfolioAsset) : ℚ :=
  (assets.map (fun a => a.current_value)).sum

/-- np.percentile with the default linear interpolation: sort ascending, take the
fractional position q/100 * (n-1), and linearly interpolate between the two
neighbouring order statistics. -/
def percentile (l : List ℚ) (q : ℚ) : ℚ :=
  let s := l.insertionSort (fun a b => a ≤ b)
  let pos : ℚ := q / 100 * ((l.length - 1 : ℕ) : ℚ)
  let lo : ℕ := ⌊pos⌋.toNat
  let frac : ℚ := pos - (lo : ℚ)
  s.getD lo 0 + frac * (s.getD (lo + 1) (s.getD lo 0) - s.getD lo 0)

/-- _calculate_var_historical, with the vector of Monte Carlo simulated returns
passed in explicitly: portfolio_values = total_value * (1 + r), losses =
total_value - portfolio_values, VaR = max(np.percentile(losses, confidence*100), 0). -/
def varHistorical (assets : List PortfolioAsset) (confidence : ℚ) (returns : List ℚ) : ℚ :=
  let total := totalValue assets
  let portfolio_values := returns.map (fun r => total * (1 + r))
  let losses := portfolio_values.map (fun v => total - v)
  max (percentile losses (confidence * 100)) 0

lemma varHistorical_nonneg (assets : List PortfolioAsset) (confidence : ℚ)
    (returns : List ℚ) : 0 ≤ varHistorical assets confidence returns :=
  le_max_right _ _

/-- C2: for every portfolio, confidence level in [0,1] and vector of 10000
simulated returns, _calculate_var_historical equals
max(percentile([total - total*(1+r) for r in returns], confidence*100), 0),
and in particular is non-negative. -/
theorem var_historical_spec (assets : List PortfolioAsset) (confidence : ℚ)
    (returns : List ℚ) (hlen : returns.length = 10000)
    (hc0 : 0 ≤ confidence) (hc1 : confidence ≤ 1) :
    varHistorical assets confidence returns
      = max (percentile
          (returns.map (fun r => totalValue assets - totalValue assets * (1 + r)))
          (confidence * 100)) 0
    ∧ 0 ≤ varHistorical assets confidence returns := by
  constructor
  · simp only [varHistorical, List.map_map]
    rfl
  · exact varHistorical_nonneg assets confidence returns

/-- Witness for C2 at a concrete portfolio, confidence 0.95 and a concrete
vector of 10000 returns. -/
theorem var_historical_spec_witness :
    ((List.replicate 10000 (1/100 : ℚ)).length = 10000
      ∧ (0 : ℚ) ≤ 19/20 ∧ (19/20 : ℚ) ≤ 1)
    ∧ (varHistorical
        [{ asset_code := "XLM", asset_issuer := none, balance := 10, current_price := 1/10,
           current_value := 1, allocation := 1, volatility := 1/5, beta := 1,
           correlation_xlm := 1 }] (19/20) (List.replicate 10000 (1/100))
        = max (percentile
            ((List.replicate 10000 (1/100 : ℚ)).map (fun r =>
              totalValue
                [{ asset_code := "XLM", asset_issuer := none, balance := 10,
                   current_price := 1/10, current_value := 1, allocation := 1,
                   volatility := 1/5, beta := 1, correlation_xlm := 1 }]
              - totalValue
                [{ asset_code := "XLM", asset_issuer := none, balance := 10,
                   current_price := 1/10, current_value := 1, allocation := 1,
                   volatility := 1/5, beta := 1, correlation_xlm := 1 }] * (1 + r)))
            (19/20 * 100)) 0
      ∧ 0 ≤ varHistorical
          [{ asset_code := "XLM", asset_issuer := none, balance := 10, current_price := 1/10,
             current_value := 1, allocation := 1, volatility := 1/5, beta := 1,
             correlation_xlm := 1 }] (19/20) (List.replicate 10000 (1/100))) :=
  ⟨⟨List.length_replicate _ _, by norm_num, by norm_num⟩,
   var_historical_spec _ _ _ (List.length_replicate _ _) (by norm_num) (by norm_num)⟩

/-- _calculate_conditional_var with explicit simulated returns: the expected loss
over the tail losses >= the VaR threshold, floored at 0.  (numpy's mean is
sum/length; the tail is nonempty for valid confidence levels.) -/
def conditionalVar (assets : List PortfolioAsset) (confidence : ℚ) (returns : List ℚ) : ℚ :=
  let total := totalValue assets
  let losses := (returns.map (fun r => total * (1 + r))).map (fun v => total - v)
  let var_threshold := percentile losses (confidence * 100)
  let tail := losses.filter (fun x => var_threshold ≤ x)
  max (tail.sum / (tail.length : ℚ)) 0

/-- The expected_returns dict of _calculate_sharpe_ratio, with .get default 0.06. -/
def expectedReturn (code : String) : ℚ :=
  if code = "XLM" then 2/25
  else if code = "USDC" then 1/50
  else if code = "BTC" then 3/20
  else if code = "ETH" then 3/25
  else 3/50

/-- portfolio_expected_return = sum of expected_returns weighted by allocation. -/
def portfolioExpectedReturn (assets : List PortfolioAsset) : ℚ :=
  (assets.map (fun a => expectedReturn a.asset_code * a.allocation)).sum

/-- _calculate_sharpe_ratio: 0 when volatility is 0, else excess return over a
2 percent risk-free rate divided by the portfolio volatility. -/
noncomputable def sharpeRatio (assets : List PortfolioAsset) (portfolio_volatility : ℝ) : ℝ :=
  if portfolio_volatility = 0 then 0
  else ((portfolioExpectedReturn assets - 1/50 : ℚ) : ℝ) / portfolio_volatility

/-- _calculate_sortino_ratio: downside volatility approximated as 0.7 times the
portfolio volatility. -/
noncomputable def sortinoRatio (assets : List PortfolioAsset) : ℝ :=
  if portfolioVolatilityWithCorrelations assets * (7/10) = 0 then 0
  else ((portfolioExpectedReturn assets - 1/50 : ℚ) : ℝ)
        / (portfolioVolatilityWithCorrelations assets * (7/10))

/-- portfolio_beta = sum of asset.beta * asset.allocation. -/
def portfolioBeta (assets : List PortfolioAsset) : ℚ :=
  (assets.map (fun a => a.beta * a.allocation)).sum

/-- _estimate_max_drawdown = min(portfolio_volatility * 2.5, 0.8). -/
noncomputable def estimateMaxDrawdown (portfolio_volatility : ℝ) : ℝ :=
  min (portfolio_volatility * (5/2)) (4/5)

/-- _calculate_diversification_ratio: 0 for an empty portfolio, zero volatility or
zero weighted average volatility, else min(weighted_avg_volatility / volatility, 10). -/
noncomputable def diversificationRatio (assets : List PortfolioAsset)
    (portfolio_volatility : ℝ) : ℝ :=
  if assets = [] ∨ portfolio_volatility = 0 then 0
  else if ((assets.map (fun a => a.volatility * a.allocation)).sum : ℚ) = 0 then 0
  else min ((((assets.map (fun a => a.volatility * a.allocation)).sum : ℚ) : ℝ)
              / portfolio_volatility) 10

/-- Python max over a nonempty list (0 seed is never used by callers that guard
against the empty list). -/
def listMax : List ℚ → ℚ
  | [] => 0
  | x :: xs => xs.foldl max x

/-- _calculate_tail_risk: 0.5 for the empty list, else
min((max allocation + average volatility) / 2, 1). -/
def tailRisk (assets : List PortfolioAsset) : ℚ :=
  if assets = [] then 1/2
  else
    min ((listMax (assets.map (fun a => a.allocation))
          + (assets.map (fun a => a.volatility)).sum / (assets.length : ℚ)) / 2) 1

/-- _calculate_overall_risk_score over the metrics dict: one-sidedly clamped
component scores combined with weights 0.3, 0.25, 0.2, 0.15, 0.1 and capped at 100. -/
def overallRiskScore {α : Type} [LinearOrderedField α]
    (volatility var_95 max_drawdown div_ratio tail_risk : α) : α :=
  min ((min (volatility * 250) 100) * (3/10)
      + (min (var_95 / 1000 * 100) 100) * (1/4)
      + (min (max_drawdown * 125) 100) * (1/5)
      + (max (100 - div_ratio * 20) 0) * (3/20)
      + (min (tail_risk * 100) 100) * (1/10)) 100

/-- RiskMetrics dataclass. -/
structure RiskMetrics where
  portfolio_value : ℝ
  var_95 : ℝ
  var_99 : ℝ
  cvar_95 : ℝ
  volatility : ℝ
  sharpe_ratio : ℝ
  sortino_ratio : ℝ
  beta : ℝ
  max_drawdown : ℝ
  risk_score : ℝ
  diversification_ratio : ℝ
  tail_risk : ℝ

/-- _get_default_risk_metrics: every field 0.0. -/
def defaultRiskMetrics : RiskMetrics :=
  { portfolio_value := 0, var_95 := 0, var_99 := 0, cvar_95 := 0, volatility := 0,
    sharpe_ratio := 0, sortino_ratio := 0, beta := 0, max_drawdown := 0,
    risk_score := 0, diversification_ratio := 0, tail_risk := 0 }

/-- _calculate_advanced_risk_metrics, with the three Monte Carlo draws (for
var_95, var_99 and cvar_95) passed in explicitly. -/
noncomputable def advancedRiskMetrics (assets : List PortfolioAsset)
    (returns95 returns99 returnsCvar : List ℚ) : RiskMetrics :=
  if assets = [] then defaultRiskMetrics
  else if totalValue assets = 0 then defaultRiskMetrics
  else
    { portfolio_value := ((totalValue assets : ℚ) : ℝ)
      var_95 := ((varHistorical assets (19/20) returns95 : ℚ) : ℝ)
      var_99 := ((varHistorical assets (99/100) returns99 : ℚ) : ℝ)
      cvar_95 := ((conditionalVar assets (19/20) returnsCvar : ℚ) : ℝ)
      volatility := portfolioVolatilityWithCorrelations assets
      sharpe_ratio := sharpeRatio assets (portfolioVolatilityWithCorrelations assets)
      sortino_ratio := sortinoRatio assets
      beta := ((portfolioBeta assets : ℚ) : ℝ)
      max_drawdown := estimateMaxDrawdown (portfolioVolatilityWithCorrelations assets)
      risk_score := overallRiskScore (portfolioVolatilityWithCorrelations assets)
        ((varHistorical assets (19/20) returns95 : ℚ) : ℝ)
        (estimateMaxDrawdown (portfolioVolatilityWithCorrelations assets))
        (diversificationRatio assets (portfolioVolatilityWithCorrelations assets))
        ((tailRisk assets : ℚ) : ℝ)
      diversification_ratio :=
        diversificationRatio assets (portfolioVolatilityWithCorrelations assets)
      tail_risk := ((tailRisk assets : ℚ) : ℝ) }

lemma foldl_max_init_le (l : List ℚ) (s : ℚ) : s ≤ l.foldl max s := by
  induction l generalizing s with
  | nil => exact le_refl s
  | cons x xs ih => exact le_trans (le_max_left s x) (ih (max s x))

lemma tailRisk_nonneg (assets : List PortfolioAsset)
    (h : ∀ a ∈ assets, 0 ≤ a.volatility ∧ 0 ≤ a.allocation) : 0 ≤ tailRisk assets := by
  cases assets with
  | nil => norm_num [tailRisk]
  | cons a rest =>
    unfold tailRisk
    rw [if_neg (by simp)]
    refine le_min ?_ (by norm_num)
    refine div_nonneg (add_nonneg ?_ ?_) (by norm_num)
    · simp only [List.map_cons, listMax]
      exact le_trans (h a (List.mem_cons_self a rest)).2 (foldl_max_init_le _ _)
    · refine div_nonneg (List.sum_nonneg ?_) (by positivity)
      intro x hx
      obtain ⟨b, hb, rfl⟩ := List.mem_map.mp hx
      exact (h b hb).1

lemma estimateMaxDrawdown_nonneg (portfolio_volatility : ℝ)
    (h : 0 ≤ portfolio_volatility) : 0 ≤ estimateMaxDrawdown portfolio_volatility :=
  le_min (mul_nonneg h (by norm_num)) (by norm_num)

lemma overallRiskScore_bounds {α : Type} [LinearOrderedField α]
    (v va dd dr tr : α) (hv : 0 ≤ v) (hva : 0 ≤ va) (hdd : 0 ≤ dd) (htr : 0 ≤ tr) :
    0 ≤ overallRiskScore v va dd dr tr ∧ overallRiskScore v va dd dr tr ≤ 100 := by
  unfold overallRiskScore
  refine ⟨le_min ?_ (by norm_num), min_le_right _ _⟩
  have h1 : (0:α) ≤ min (v * 250) 100 := le_min (mul_nonneg hv (by norm_num)) (by norm_num)
  have h2 : (0:α) ≤ min (va / 1000 * 100) 100 :=
    le_min (mul_nonneg (div_nonneg hva (by norm_num)) (by norm_num)) (by norm_num)
  have h3 : (0:α) ≤ min (dd * 125) 100 := le_min (mul_nonneg hdd (by norm_num)) (by norm_num)
  have h4 : (0:α) ≤ max (100 - dr * 20) 0 := le_max_right _ _
  have h5 : (0:α) ≤ min (tr * 100) 100 := le_min (mul_nonneg htr (by norm_num)) (by norm_num)
  exact add_nonneg (add_nonneg (add_nonneg
    (add_nonneg (mul_nonneg h1 (by norm_num)) (mul_nonneg h2 (by norm_num)))
    (mul_nonneg h3 (by norm_num))) (mul_nonneg h4 (by norm_num)))
    (mul_nonneg h5 (by norm_num))

/-- C8 (as stated) is falsified at a metrics input with negative volatility:
the volatility score is only clamped from above, so the overall risk score
can be negative. -/
theorem overall_risk_score_negative_input :
    overallRiskScore ((-1 : ℚ)) 0 0 0 0 < 0 := by
  norm_num [overallRiskScore, min_def, max_def]

/-- C8 (amended): the overall risk score lies in [0, 100] for every metrics input
whose volatility, var_95, max_drawdown and tail_risk are non-negative (each such
component score is clamped above at 100, the diversification score is clamped
below at 0, and the weighted combination is capped at 100); consequently every
RiskMetrics produced by _calculate_advanced_risk_metrics on assets with
non-negative volatility and allocation fields has risk_score in [0, 100]. -/
theorem overall_risk_score_in_range :
    (∀ volatility var_95 max_drawdown div_ratio tail_risk : ℝ,
        0 ≤ volatility → 0 ≤ var_95 → 0 ≤ max_drawdown → 0 ≤ tail_risk →
        0 ≤ overallRiskScore volatility var_95 max_drawdown div_ratio tail_risk
          ∧ overallRiskScore volatility var_95 max_drawdown div_ratio tail_risk ≤ 100)
    ∧ (∀ (assets : List PortfolioAsset) (r95 r99 rcv : List ℚ),
        (∀ a ∈ assets, 0 ≤ a.volatility ∧ 0 ≤ a.allocation) →
        0 ≤ (advancedRiskMetrics assets r95 r99 rcv).risk_score
          ∧ (advancedRiskMetrics assets r95 r99 rcv).risk_score ≤ 100) := by
  constructor
  · intro v va dd dr tr hv hva hdd htr
    exact overallRiskScore_bounds v va dd dr tr hv hva hdd htr
  · intro assets r95 r99 rcv h
    by_cases he : assets = []
    · subst he
      norm_num [advancedRiskMetrics, defaultRiskMetrics]
    · by_cases ht : totalValue assets = 0
      · unfold advancedRiskMetrics
        rw [if_neg he, if_pos ht]
        norm_num [defaultRiskMetrics]
      · unfold advancedRiskMetrics
        rw [if_neg he, if_neg ht]
        refine overallRiskScore_bounds _ _ _ _ _ ?_ ?_ ?_ ?_
        · exact portfolioVolatilityWithCorrelations_nonneg assets (fun a ha => (h a ha).1)
        · exact_mod_cast varHistorical_nonneg assets (19/20) r95
        · exact estimateMaxDrawdown_nonneg _
            (portfolioVolatilityWithCorrelations_nonneg assets (fun a ha => (h a ha).1))
        · exact_mod_cast tailRisk_nonneg assets h

/-- Witness for C8 at a concrete single-asset portfolio. -/
theorem overall_risk_score_in_range_witness :
    (∀ a ∈ [({ asset_code := "XLM", asset_issuer := none, balance := 10, current_price := 1/10,
               current_value := 1, allocation := 1, volatility := 1/5, beta := 1,
               correlation_xlm := 1 } : PortfolioAsset)], 0 ≤ a.volatility ∧ 0 ≤ a.allocation)
    ∧ (0 ≤ (advancedRiskMetrics
          [{ asset_code := "XLM", asset_issuer := none, balance := 10, current_price := 1/10,
             current_value := 1, allocation := 1, volatility := 1/5, beta := 1,
             correlation_xlm := 1 }] [] [] []).risk_score
        ∧ (advancedRiskMetrics
          [{ asset_code := "XLM", asset_issuer := none, balance := 10, current_price := 1/10,
             current_value := 1, allocation := 1, volatility := 1/5, beta := 1,
             correlation_xlm := 1 }] [] [] []).risk_score ≤ 100) :=
  ⟨by
    intro a ha
    simp only [List.mem_singleton] at ha
    subst ha
    exact ⟨by norm_num, by norm_num⟩,
   overall_risk_score_in_range.2 _ [] [] []
    (by
      intro a ha
      simp only [List.mem_singleton] at ha
      subst ha
      exact ⟨by norm_num, by norm_num⟩)⟩

/-- C9: for an empty asset list, or any asset list with total current value 0,
_calculate_advanced_risk_metrics returns the default RiskMetrics record, whose
twelve fields are all 0.0. -/
theorem advanced_risk_metrics_default (assets : List PortfolioAsset)
    (r95 r99 rcv : List ℚ) (h : assets = [] ∨ totalValue assets = 0) :
    advancedRiskMetrics assets r95 r99 rcv = defaultRiskMetrics
    ∧ defaultRiskMetrics.portfolio_value = 0 ∧ defaultRiskMetrics.var_95 = 0
    ∧ defaultRiskMetrics.var_99 = 0 ∧ defaultRiskMetrics.cvar_95 = 0
    ∧ defaultRiskMetrics.volatility = 0 ∧ defaultRiskMetrics.sharpe_ratio = 0
    ∧ defaultRiskMetrics.sortino_ratio = 0 ∧ defaultRiskMetrics.beta = 0
    ∧ defaultRiskMetrics.max_drawdown = 0 ∧ defaultRiskMetrics.risk_score = 0
    ∧ defaultRiskMetrics.diversification_ratio = 0 ∧ defaultRiskMetrics.tail_risk = 0 := by
  refine ⟨?_, rfl, rfl, rfl, rfl, rfl, rfl, rfl, rfl, rfl, rfl, rfl, rfl⟩
  unfold advancedRiskMetrics
  rcases h with h | h
  · rw [if_pos h]
  · by_cases he : assets = []
    · rw [if_pos he]
    · rw [if_neg he, if_pos h]

/-- Witness for C9 at the empty portfolio. -/
theorem advanced_risk_metrics_default_witness :
    (([] : List PortfolioAsset) = [] ∨ totalValue [] = 0)
    ∧ advancedRiskMetrics [] [] [] [] = defaultRiskMetrics :=
  ⟨Or.inl rfl, (advanced_risk_metrics_default [] [] [] [] (Or.inl rfl)).1⟩

/-- numpy mean: sum / length. -/
def mean (l : List ℚ) : ℚ := l.sum / (l.length : ℚ)

/-- Mean of the time indices 0 .. n-1 used as the regression X. -/
def indexMean (n : ℕ) : ℚ := mean ((List.range n).map (fun i => (i : ℚ)))

/-- Least-squares slope of sklearn's LinearRegression fitted on
X = arange(len(prices)), y = prices. -/
def fitSlope (prices : List ℚ) : ℚ :=
  (prices.enum.map (fun p => ((p.1 : ℚ) - indexMean prices.length) * (p.2 - mean prices))).sum
    / (((List.range prices.length).map (fun i => ((i : ℚ) - indexMean prices.length)^2)).sum)

/-- Least-squares intercept of the same fit. -/
def fitIntercept (prices : List ℚ) : ℚ :=
  mean prices - fitSlope prices * indexMean prices.length

/-- model.predict at time index t. -/
def predictedPrice (prices : List ℚ) (t : ℕ) : ℚ :=
  fitIntercept prices + fitSlope prices * (t : ℚ)

/-- The 24 hourly predicted prices of _predict_asset_price (main branch,
len(prices) >= 10): model.predict on arange(n, n+24), each floored at the
minimum price 0.01. -/
def predictedPrices (prices : List ℚ) : List ℚ :=
  (List.range 24).map (fun i => max (predictedPrice prices (prices.length + i)) (1/100))

/-- prices[-1]. -/
def lastHistoricalPrice (prices : List ℚ) : ℚ := (prices.getLast?).getD 0

/-- The trend of _predict_asset_price: bullish when the raw last predicted price
exceeds the last historical price, else bearish, overridden to neutral when the
relative change is below 5 percent. -/
def predictTrend (prices : List ℚ) : String :=
  let base :=
    if lastHistoricalPrice prices < predictedPrice prices (prices.length + 23)
    then "bullish" else "bearish"
  if |predictedPrice prices (prices.length + 23) - lastHistoricalPrice prices|
       / lastHistoricalPrice prices < 1/20
  then "neutral" else base

/-- C4: for a price history of at least 10 points with positive last price,
_predict_asset_price returns exactly 24 predictions, the i-th being the fitted
regression value at time n+i floored at 0.01 (so every prediction is at least
0.01), and the trend is neutral when the relative difference between the last
predicted and last historical price is below 5 percent, else bullish when the
last predicted price exceeds the last historical price and bearish otherwise. -/
theorem predict_asset_price_spec (prices : List ℚ) (hlen : 10 ≤ prices.length)
    (hpos : 0 < lastHistoricalPrice prices) :
    (predictedPrices prices).length = 24
    ∧ (∀ p ∈ predictedPrices prices, 1/100 ≤ p)
    ∧ (∀ i, i < 24 → (predictedPrices prices).getD i 0
         = max (fitIntercept prices + fitSlope prices * ((prices.length + i : ℕ) : ℚ)) (1/100))
    ∧ (|predictedPrice prices (prices.length + 23) - lastHistoricalPrice prices|
           / lastHistoricalPrice prices < 1/20 → predictTrend prices = "neutral")
    ∧ (¬ |predictedPrice prices (prices.length + 23) - lastHistoricalPrice prices|
           / lastHistoricalPrice prices < 1/20 →
        (lastHistoricalPrice prices < predictedPrice prices (prices.length + 23) →
          predictTrend prices = "bullish")
        ∧ (¬ lastHistoricalPrice prices < predictedPrice prices (prices.length + 23) →
          predictTrend prices = "bearish")) := by
  refine ⟨by simp [predictedPrices], ?_, ?_, ?_, ?_⟩
  · intro p hp
    obtain ⟨i, hi, rfl⟩ := List.mem_map.mp hp
    exact le_max_right _ _
  · intro i hi
    simp [predictedPrices, predictedPrice, List.getD, List.getElem?_map,
      List.getElem?_range hi]
  · intro h
    simp only [predictTrend]
    rw [if_pos h]
  · intro h
    constructor
    · intro hb
      simp only [predictTrend]
      rw [if_neg h, if_pos hb]
    · intro hb
      simp only [predictTrend]
      rw [if_neg h, if_neg hb]

/-- Witness for C4 at a concrete 10-point price history. -/
theorem predict_asset_price_spec_witness :
    (10 ≤ ([1, 1, 1, 1, 1, 1, 1, 1, 1, 1] : List ℚ).length
      ∧ 0 < lastHistoricalPrice [1, 1, 1, 1, 1, 1, 1, 1, 1, 1])
    ∧ (predictedPrices [1, 1, 1, 1, 1, 1, 1, 1, 1, 1]).length = 24 :=
  ⟨⟨by decide, by norm_num [lastHistoricalPrice]⟩,
   (predict_asset_price_spec [1, 1, 1, 1, 1, 1, 1, 1, 1, 1] (by decide)
      (by norm_num [lastHistoricalPrice])).1⟩

/-- Python str.strip(): leading and trailing whitespace removed. -/
def pyStrip (s : String) : String :=
  String.mk (((s.toList.dropWhile Char.isWhitespace).reverse.dropWhile
    Char.isWhitespace).reverse)

/-- The regex character class [A-Z2-7] of validate_stellar_address. -/
def isStellarChar (c : Char) : Bool :=
  (decide ('A' ≤ c) && decide (c ≤ 'Z')) || (decide ('2' ≤ c) && decide (c ≤ '7'))

/-- validate_stellar_address: False for the empty string, False unless the
stripped address has exactly 56 characters all in [A-Z2-7] (the regex
anchored match with the length test), else the result of parsing it as a
Stellar Ed25519 public key; the stellar_sdk Keypair.from_public_key parse is
modelled as an abstract Boolean oracle parseOk. -/
def validate_stellar_address (parseOk : String → Bool) (address : String) : Bool :=
  if address = "" then false
  else if ¬ ((pyStrip address).length = 56 ∧ ∀ c ∈ (pyStrip address).toList, isStellarChar c = true)
  then false
  else parseOk (pyStrip address)

/-- C5: validate_stellar_address returns False whenever the stripped string is
not exactly 56 characters from [A-Z2-7], and returns True only when the
string additionally parses as a valid Stellar Ed25519 public key. -/
theorem validate_stellar_address_spec (parseOk : String → Bool) (address : String) :
    (¬ ((pyStrip address).length = 56 ∧ ∀ c ∈ (pyStrip address).toList, isStellarChar c = true) →
       validate_stellar_address parseOk address = false)
    ∧ (validate_stellar_address parseOk address = true →
        (pyStrip address).length = 56
        ∧ (∀ c ∈ (pyStrip address).toList, isStellarChar c = true)
        ∧ parseOk (pyStrip address) = true) := by
  unfold validate_stellar_address
  by_cases he : address = ""
  · rw [if_pos he]
    exact ⟨fun _ => rfl, fun h => absurd h (by simp)⟩
  · rw [if_neg he]
    by_cases hc : (pyStrip address).length = 56 ∧ ∀ c ∈ (pyStrip address).toList, isStellarChar c = true
    · rw [if_neg (not_not_intro hc)]
      exact ⟨fun h => absurd hc h, fun hp => ⟨hc.1, hc.2, hp⟩⟩
    · rw [if_pos hc]
      exact ⟨fun _ => rfl, fun h => absurd h (by simp)⟩

/-- Witness for C5: a short string fails the 56-character check. -/
theorem validate_stellar_address_spec_witness :
    ¬ ((pyStrip "ABC").length = 56
        ∧ ∀ c ∈ (pyStrip "ABC").toList, isStellarChar c = true)
    ∧ validate_stellar_address (fun _ => true) "ABC" = false := by
  have h : ¬ ((pyStrip "ABC").length = 56
      ∧ ∀ c ∈ (pyStrip "ABC").toList, isStellarChar c = true) := by
    decide
  exact ⟨h, (validate_stellar_address_spec (fun _ => true) "ABC").1 h⟩

/-- CacheService.get with the redis client and JSON codec abstract: connected is
the is_connected() outcome, rawGet the underlying redis get (which may raise),
loads the json.loads decode (which may raise).  A stored empty string is falsy
in Python, so it also yields None. -/
def CacheService.get {α : Type} (connected : Bool)
    (rawGet : String → Except Unit (Option String))
    (loads : String → Except Unit α) (key : String) : Option α :=
  if !connected then none
  else
    match rawGet key with
    | .error _ => none
    | .ok none => none
    | .ok (some v) =>
      if v = "" then none
      else
        match loads v with
        | .error _ => none
        | .ok x => some x

/-- CacheService.set: False when disconnected, when json.dumps raises, or when
the underlying setex raises; else the setex result. -/
def CacheService.set {α : Type} (connected : Bool)
    (dumps : α → Except Unit String)
    (setex : String → Nat → String → Except Unit Bool)
    (key : String) (value : α) (ttl_seconds : Nat) : Bool :=
  if !connected then false
  else
    match dumps value with
    | .error _ => false
    | .ok s =>
      match setex key ttl_seconds s with
      | .error _ => false
      | .ok b => b

/-- CacheService.delete: False when disconnected or when the underlying delete
raises; else bool(number of keys removed). -/
def CacheService.delete (connected : Bool)
    (rawDelete : String → Except Unit Nat) (key : String) : Bool :=
  if !connected then false
  else
    match rawDelete key with
    | .error _ => false
    | .ok n => n != 0

/-- C7: the cache wrapper degrades to a no-op rather than raising: get returns
None when disconnected, when the underlying get fails, or when the JSON decode
fails, and otherwise returns the JSON-decoded stored value; set and delete
return False when disconnected or when the underlying operation fails.  The
hypothesis on loads reflects that json.loads raises on the empty string. -/
theorem cache_service_degrades {α : Type} (connected : Bool)
    (rawGet : String → Except Unit (Option String)) (loads : String → Except Unit α)
    (dumps : α → Except Unit String) (setex : String → Nat → String → Except Unit Bool)
    (rawDelete : String → Except Unit Nat) (key : String) (value : α) (ttl_seconds : Nat)
    (hloads : ∀ x : α, loads "" ≠ .ok x) :
    (connected = false → CacheService.get connected rawGet loads key = none)
    ∧ (∀ e, rawGet key = .error e → CacheService.get connected rawGet loads key = none)
    ∧ (∀ v e, rawGet key = .ok (some v) → loads v = .error e →
        CacheService.get connected rawGet loads key = none)
    ∧ (∀ v x, connected = true → rawGet key = .ok (some v) → loads v = .ok x →
        CacheService.get connected rawGet loads key = some x)
    ∧ (connected = false → CacheService.set connected dumps setex key value ttl_seconds = false)
    ∧ (∀ e, dumps value = .error e →
        CacheService.set connected dumps setex key value ttl_seconds = false)
    ∧ (∀ s e, dumps value = .ok s → setex key ttl_seconds s = .error e →
        CacheService.set connected dumps setex key value ttl_seconds = false)
    ∧ (connected = false → CacheService.delete connected rawDelete key = false)
    ∧ (∀ e, rawDelete key = .error e → CacheService.delete connected rawDelete key = false) := by
  refine ⟨?_, ?_, ?_, ?_, ?_, ?_, ?_, ?_, ?_⟩
  · rintro rfl
    simp [CacheService.get]
  · intro e he
    cases connected with
    | false => simp [CacheService.get]
    | true => simp [CacheService.get, he]
  · intro v e hv he
    cases connected with
    | false => simp [CacheService.get]
    | true =>
      by_cases hv0 : v = ""
      · simp [CacheService.get, hv, hv0]
      · simp [CacheService.get, hv, hv0, he]
  · intro v x hc hv hx
    subst hc
    have hv0 : v ≠ "" := by
      intro h
      subst h
      exact hloads x hx
    simp [CacheService.get, hv, hv0, hx]
  · rintro rfl
    simp [CacheService.set]
  · intro e he
    cases connected with
    | false => simp [CacheService.set]
    | true => simp [CacheService.set, he]
  · intro s e hs he
    cases connected with
    | false => simp [CacheService.set]
    | true => simp [CacheService.set, hs, he]
  · rintro rfl
    simp [CacheService.delete]
  · intro e he
    cases connected with
    | false => simp [CacheService.delete]
    | true => simp [CacheService.delete, he]

/-- Witness for C7 at a concrete disconnected store and a failing decoder. -/
theorem cache_service_degrades_witness :
    CacheService.get false (fun _ => Except.ok none)
      (fun _ => (Except.error () : Except Unit Nat)) "k" = none :=
  (cache_service_degrades false (fun _ => Except.ok none)
    (fun _ => (Except.error () : Except Unit Nat))
    (fun _ => Except.ok "0") (fun _ _ _ => Except.ok true) (fun _ => Except.ok 1)
    "k" 0 300 (fun x h => by simp at h)).1 rfl

/-- User ORM row (app/models/database.py), the fields read by the endpoints. -/
structure User where
  id : ℕ
  wallet_address : String
deriving DecidableEq

/-- Portfolio ORM row, the fields read or written by the endpoints below. -/
structure Portfolio where
  id : ℕ
  user_id : ℕ
  asset_code : String
  asset_issuer : Option String
  balance : ℚ
  target_allocation : ℚ
  status : String
  updated_at : ℕ
deriving DecidableEq

/-- One item of the current_allocation dict in suggest_rebalancing: the asset's
USD value and its stored target allocation divided by 100. -/
structure AllocationEntry where
  asset_code : String
  value : ℚ
  target_allocation : ℚ
deriving DecidableEq

/-- The per-row contributions of the pricing loop in suggest_rebalancing: one
entry per portfolio row whose oracle price is truthy (present and nonzero),
in row order.  total_value sums all of these, even when asset codes repeat. -/
def pricedEntries (rows : List Portfolio)
    (price : String → Option String → Option ℚ) : List AllocationEntry :=
  rows.filterMap (fun p =>
    match price p.asset_code p.asset_issuer with
    | none => none
    | some pr =>
      if pr = 0 then none
      else some { asset_code := p.asset_code, value := p.balance * pr,
                  target_allocation := p.target_allocation / 100 })

/-- One step of current_allocation[asset_code] = item: a Python dict keyed by
asset_code overwrites an existing key in place (keeping its position) and
appends a new key at the end. -/
def dictInsert (d : List AllocationEntry) (e : AllocationEntry) : List AllocationEntry :=
  if d.any (fun x => x.asset_code == e.asset_code) then
    d.map (fun x => if x.asset_code == e.asset_code then e else x)
  else d ++ [e]

/-- The current_allocation dict of suggest_rebalancing: the priced rows entered
into an asset_code-keyed dict in row order, the last row with a given code
winning. -/
def buildAllocation (rows : List Portfolio)
    (price : String → Option String → Option ℚ) : List AllocationEntry :=
  (pricedEntries rows price).foldl dictInsert []

/-- total_value accumulated by the pricing loop: the sum over all priced rows
(duplicate asset codes included, unlike the dict). -/
def pricedTotal (rows : List Portfolio)
    (price : String → Option String → Option ℚ) : ℚ :=
  ((pricedEntries rows price).map (fun e => e.value)).sum

/-- current allocation = value / total_value if total_value > 0 else 0. -/
def allocationOf (total : ℚ) (e : AllocationEntry) : ℚ :=
  if 0 < total then e.value / total else 0

/-- check_rebalance_needed: some deviation strictly exceeds the threshold. -/
def check_rebalance_needed (entries : List AllocationEntry) (total threshold : ℚ) : Bool :=
  entries.any (fun e => decide (threshold < |allocationOf total e - e.target_allocation|))

/-- An order dict produced by generate_rebalance_orders (also the shape read by
simulate_order_execution). -/
structure RebalanceOrder where
  asset_code : String
  order_type : String
  current_value : ℚ
  target_value : ℚ
  value_difference : ℚ
  current_allocation : ℚ
  target_allocation : ℚ
deriving DecidableEq

/-- generate_rebalance_orders: one buy/sell order per asset whose absolute value
difference exceeds 1.0. -/
def generate_rebalance_orders (entries : List AllocationEntry) (total : ℚ) :
    List RebalanceOrder :=
  entries.filterMap (fun e =>
    if 1 < |total * e.target_allocation - e.value| then
      some { asset_code := e.asset_code,
             order_type := if 0 < total * e.target_allocation - e.value then "buy" else "sell",
             current_value := e.value,
             target_value := total * e.target_allocation,
             value_difference := total * e.target_allocation - e.value,
             current_allocation := allocationOf total e,
             target_allocation := e.target_allocation }
    else none)

/-- calculate_estimated_cost: 0.1 percent fee on buys, 0.05 percent on sells. -/
def calculate_estimated_cost (orders : List RebalanceOrder) : ℚ :=
  (orders.map (fun o =>
    if o.order_type = "buy" then |o.value_difference| * (1/1000)
    else |o.value_difference| * (1/2000))).sum

/-- calculate_risk_improvement: min(total deviation * 10, 100). -/
def calculate_risk_improvement (entries : List AllocationEntry) (total : ℚ) : ℚ :=
  min ((entries.map (fun e => |allocationOf total e - e.target_allocation|)).sum * 10) 100

/-- RebalanceResponse fields of the /rebalance/suggest endpoint. -/
structure RebalanceResponse where
  should_rebalance : Bool
  current_allocation : List (String × ℚ)
  target_allocation : List (String × ℚ)
  suggested_orders : List RebalanceOrder
  estimated_cost : ℚ
  risk_improvement : ℚ

/-- suggest_rebalancing: builds the priced allocation dict, decides
should_rebalance by check_rebalance_needed, and fills orders, estimated cost
and risk improvement only when rebalancing is needed. -/
def suggest_rebalancing (rows : List Portfolio)
    (price : String → Option String → Option ℚ) (threshold : ℚ) : RebalanceResponse :=
  let entries := buildAllocation rows price
  let total := pricedTotal rows price
  let should := check_rebalance_needed entries total threshold
  { should_rebalance := should
    current_allocation := entries.map (fun e => (e.asset_code, allocationOf total e))
    target_allocation := entries.map (fun e => (e.asset_code, e.target_allocation))
    suggested_orders := if should then generate_rebalance_orders entries total else []
    estimated_cost :=
      if should then calculate_estimated_cost (generate_rebalance_orders entries total) else 0
    risk_improvement := if should then calculate_risk_improvement entries total else 0 }

lemma pricedEntries_keys_sublist (rows : List Portfolio)
    (price : String → Option String → Option ℚ) :
    ((pricedEntries rows price).map (fun e => e.asset_code)).Sublist
      (rows.map (fun p => p.asset_code)) := by
  induction rows with
  | nil => simp [pricedEntries]
  | cons p rows ih =>
    cases hp : price p.asset_code p.asset_issuer with
    | none =>
      simp only [pricedEntries, List.filterMap_cons, hp, List.map_cons]
      exact ih.cons _
    | some pr =>
      by_cases h0 : pr = 0
      · simp only [pricedEntries, List.filterMap_cons, hp, List.map_cons]
        rw [if_pos h0]
        exact ih.cons _
      · simp only [pricedEntries, List.filterMap_cons, hp, List.map_cons]
        rw [if_neg h0]
        exact ih.cons₂ _

lemma foldl_dictInsert_of_nodup (l : List AllocationEntry) :
    ∀ d : List AllocationEntry,
      ((d ++ l).map (fun e => e.asset_code)).Nodup →
      l.foldl dictInsert d = d ++ l := by
  induction l with
  | nil => intro d _; simp
  | cons e l ih =>
    intro d h
    have hdisj : ∀ x ∈ d, ¬ x.asset_code = e.asset_code := by
      intro x hx hEq
      have h2 := (List.nodup_append.mp (by simpa [List.map_append] using h)).2.2
      exact h2 (List.mem_map_of_mem _ hx) (by simp [hEq])
    have hkey : ¬ (d.any (fun x => x.asset_code == e.asset_code) = true) := by
      simp only [List.any_eq_true, beq_iff_eq, not_exists]
      intro x
      intro hc
      exact absurd hc.2 (hdisj x hc.1)
    rw [List.foldl_cons]
    have hins : dictInsert d e = d ++ [e] := by
      unfold dictInsert
      rw [if_neg hkey]
    rw [hins]
    have := ih (d ++ [e]) (by simpa [List.append_assoc] using h)
    simpa [List.append_assoc] using this

lemma buildAllocation_of_nodup (rows : List Portfolio)
    (price : String → Option String → Option ℚ)
    (h : (rows.map (fun p => p.asset_code)).Nodup) :
    buildAllocation rows price = pricedEntries rows price := by
  have hk : ((pricedEntries rows price).map (fun e => e.asset_code)).Nodup :=
    h.sublist (pricedEntries_keys_sublist rows price)
  simpa [buildAllocation]
    using foldl_dictInsert_of_nodup (pricedEntries rows price) [] (by simpa using hk)

/-- A portfolio row with a duplicated asset code (issuer G1). -/
def dupRow1 : Portfolio :=
  { id := 1, user_id := 1, asset_code := "USDC", asset_issuer := some "G1",
    balance := 100, target_allocation := 90, status := "owned", updated_at := 0 }

/-- A second row with the same asset code under another issuer (G2). -/
def dupRow2 : Portfolio :=
  { id := 2, user_id := 1, asset_code := "USDC", asset_issuer := some "G2",
    balance := 100, target_allocation := 50, status := "owned", updated_at := 0 }

/-- C3 (as stated) is falsified by a duplicate-asset-code portfolio: the
current_allocation dict is keyed by asset_code alone, so the later USDC row
overwrites the earlier one while total_value still counts both; the first
row's deviation is 0.4 > 0.05 yet should_rebalance is False. -/
theorem suggest_rebalancing_duplicate_code :
    (suggest_rebalancing [dupRow1, dupRow2] (fun _ _ => some 1)
        (1/20)).should_rebalance = false
    ∧ ∃ e ∈ pricedEntries [dupRow1, dupRow2] (fun _ _ => some 1),
        1/20 < |allocationOf (pricedTotal [dupRow1, dupRow2] (fun _ _ => some 1)) e
                  - e.target_allocation| := by
  constructor
  · norm_num [suggest_rebalancing, check_rebalance_needed, buildAllocation,
      pricedEntries, pricedTotal, dictInsert, allocationOf, dupRow1, dupRow2,
      List.filterMap_cons, List.filterMap_nil, List.foldl_cons, List.foldl_nil,
      List.map_cons, List.map_nil, List.sum_cons, List.sum_nil]
  · refine ⟨{ asset_code := "USDC", value := 100, target_allocation := 9/10 }, ?_, ?_⟩
    · norm_num [pricedEntries, dupRow1, dupRow2, List.filterMap_cons, List.filterMap_nil]
    · have h25 : |(2:ℚ)/5| = 2/5 := abs_of_nonneg (by norm_num)
      norm_num [allocationOf, pricedTotal, pricedEntries, dupRow1, dupRow2,
        List.filterMap_cons, List.filterMap_nil, List.map_cons, List.map_nil,
        List.sum_cons, List.sum_nil, abs_sub_comm, h25]

/-- C3 (amended): should_rebalance is true iff some entry of the
current_allocation dict (keyed by asset_code, the last priced row winning,
allocations taken over the total value of all priced rows) deviates from its
target by strictly more than the threshold; when it is false the response has
no suggested orders, zero estimated cost and zero risk improvement; every
priced row contributes its value to the pricing loop's entries, and when the
portfolio's asset codes are distinct the dict holds exactly one entry per
priced row, recovering the per-asset reading. -/
theorem suggest_rebalancing_spec (rows : List Portfolio)
    (price : String → Option String → Option ℚ) (threshold : ℚ) :
    ((suggest_rebalancing rows price threshold).should_rebalance = true ↔
      ∃ e ∈ buildAllocation rows price,
        threshold < |allocationOf (pricedTotal rows price) e - e.target_allocation|)
    ∧ ((suggest_rebalancing rows price threshold).should_rebalance = false →
        (suggest_rebalancing rows price threshold).suggested_orders = []
        ∧ (suggest_rebalancing rows price threshold).estimated_cost = 0
        ∧ (suggest_rebalancing rows price threshold).risk_improvement = 0)
    ∧ (∀ p ∈ rows, ∀ pr, price p.asset_code p.asset_issuer = some pr → pr ≠ 0 →
        ({ asset_code := p.asset_code, value := p.balance * pr,
           target_allocation := p.target_allocation / 100 } : AllocationEntry)
          ∈ pricedEntries rows price)
    ∧ ((rows.map (fun p => p.asset_code)).Nodup →
        buildAllocation rows price = pricedEntries rows price) := by
  refine ⟨?_, ?_, ?_, buildAllocation_of_nodup rows price⟩
  · simp [suggest_rebalancing, check_rebalance_needed, List.any_eq_true]
  · intro h
    simp only [suggest_rebalancing] at h ⊢
    rw [h]
    exact ⟨rfl, rfl, rfl⟩
  · intro p hp pr hpr hne
    refine List.mem_filterMap.mpr ⟨p, hp, ?_⟩
    rw [hpr]
    simp [hne]

/-- Witness for C3: a portfolio already at its target allocation needs no
rebalancing and the response carries no orders and zero costs. -/
theorem suggest_rebalancing_spec_witness :
    (suggest_rebalancing
        [{ id := 1, user_id := 1, asset_code := "XLM", asset_issuer := none,
           balance := 10, target_allocation := 100, status := "owned", updated_at := 0 }]
        (fun _ _ => some 1) (1/20)).should_rebalance = false
    ∧ ((suggest_rebalancing
        [{ id := 1, user_id := 1, asset_code := "XLM", asset_issuer := none,
           balance := 10, target_allocation := 100, status := "owned", updated_at := 0 }]
        (fun _ _ => some 1) (1/20)).suggested_orders = []
      ∧ (suggest_rebalancing
        [{ id := 1, user_id := 1, asset_code := "XLM", asset_issuer := none,
           balance := 10, target_allocation := 100, status := "owned", updated_at := 0 }]
        (fun _ _ => some 1) (1/20)).estimated_cost = 0
      ∧ (suggest_rebalancing
        [{ id := 1, user_id := 1, asset_code := "XLM", asset_issuer := none,
           balance := 10, target_allocation := 100, status := "owned", updated_at := 0 }]
        (fun _ _ => some 1) (1/20)).risk_improvement = 0) := by
  have h : (suggest_rebalancing
      [{ id := 1, user_id := 1, asset_code := "XLM", asset_issuer := none,
         balance := 10, target_allocation := 100, status := "owned", updated_at := 0 }]
      (fun _ _ => some 1) (1/20)).should_rebalance = false := by
    norm_num [suggest_rebalancing, check_rebalance_needed, buildAllocation,
      pricedEntries, pricedTotal, dictInsert, allocationOf,
      List.filterMap_cons, List.filterMap_nil, List.foldl_cons, List.foldl_nil,
      List.map_cons, List.map_nil, List.sum_cons, List.sum_nil]
  exact ⟨h, (suggest_rebalancing_spec _ _ _).2.1 h⟩

/-- RebalanceHistory ORM row; json.dumps of the submitted orders is modelled by
keeping the order list, and old_allocation holds the dumped empty dict. -/
structure RebalanceHistory where
  user_id : ℕ
  old_allocation : String
  new_allocation : List RebalanceOrder
  rebalance_type : String
  success : Bool

/-- The database state touched by the endpoints below. -/
structure DB where
  users : List User
  portfolios : List Portfolio
  rebalance_history : List RebalanceHistory

/-- simulate_order_execution: a mock fill of 99 percent of the requested value
at a 0.1 percent fee, always marked executed. -/
structure ExecutionResult where
  asset_code : String
  order_type : String
  requested_value : ℚ
  executed_value : ℚ
  cost : ℚ
  status : String
deriving DecidableEq

def simulate_order_execution (order : RebalanceOrder) : ExecutionResult :=
  { asset_code := order.asset_code
    order_type := order.order_type
    requested_value := |order.value_difference|
    executed_value := |order.value_difference| * (99/100)
    cost := |order.value_difference| * (1/1000)
    status := "executed" }

/-- execute_rebalancing: 404 when the wallet has no user; otherwise every order
is simulated, the costs summed, and a RebalanceHistory row with success True is
committed. -/
def execute_rebalancing (db : DB) (wallet_address : String)
    (orders : List RebalanceOrder) : Except String (List ExecutionResult × ℚ × DB) :=
  match db.users.find? (fun u => u.wallet_address == wallet_address) with
  | none => .error "User not found"
  | some user =>
    .ok (orders.map simulate_order_execution,
      ((orders.map simulate_order_execution).map (fun r => r.cost)).sum,
      { db with rebalance_history := db.rebalance_history ++
          [{ user_id := user.id, old_allocation := "\x7b\x7d",
             new_allocation := orders, rebalance_type := "manual", success := true }] })

/-- C6: rebalance execution is simulated end to end: for an existing user every
submitted order yields a result with executed_value 0.99 times the absolute
value difference, cost 0.001 times it and status executed, and the endpoint
appends a RebalanceHistory row with success True. -/
theorem execute_rebalancing_simulated (db : DB) (wallet_address : String)
    (orders : List RebalanceOrder) (user : User)
    (hu : db.users.find? (fun u => u.wallet_address == wallet_address) = some user) :
    execute_rebalancing db wallet_address orders
      = .ok (orders.map simulate_order_execution,
          ((orders.map simulate_order_execution).map (fun r => r.cost)).sum,
          { db with rebalance_history := db.rebalance_history ++
              [{ user_id := user.id, old_allocation := "\x7b\x7d",
                 new_allocation := orders, rebalance_type := "manual", success := true }] })
    ∧ (∀ o ∈ orders,
        (simulate_order_execution o).executed_value = (99/100) * |o.value_difference|
        ∧ (simulate_order_execution o).cost = (1/1000) * |o.value_difference|
        ∧ (simulate_order_execution o).status = "executed")
    ∧ ({ user_id := user.id, old_allocation := "\x7b\x7d", new_allocation := orders,
         rebalance_type := "manual", success := true } : RebalanceHistory).success = true := by
  refine ⟨?_, ?_, rfl⟩
  · unfold execute_rebalancing
    rw [hu]
  · intro o ho
    exact ⟨mul_comm _ _, mul_comm _ _, rfl⟩

/-- Witness for C6 at a concrete one-user database and a single sell order. -/
theorem execute_rebalancing_simulated_witness :
    (DB.users { users := [{ id := 1, wallet_address := "W" }],
                portfolios := [], rebalance_history := [] }).find?
        (fun u => u.wallet_address == "W")
      = some { id := 1, wallet_address := "W" }
    ∧ execute_rebalancing
        { users := [{ id := 1, wallet_address := "W" }], portfolios := [],
          rebalance_history := [] } "W"
        [{ asset_code := "XLM", order_type := "sell", current_value := 10,
           target_value := 5, value_difference := -5, current_allocation := 1/2,
           target_allocation := 1/4 }]
      = .ok ([{ asset_code := "XLM", order_type := "sell", current_value := 10,
                target_value := 5, value_difference := -5, current_allocation := 1/2,
                target_allocation := 1/4 }].map simulate_order_execution,
          (([{ asset_code := "XLM", order_type := "sell", current_value := 10,
               target_value := 5, value_difference := -5, current_allocation := 1/2,
               target_allocation := 1/4 }].map
                simulate_order_execution).map (fun r => r.cost)).sum,
          { users := [{ id := 1, wallet_address := "W" }], portfolios := [],
            rebalance_history :=
              [{ user_id := 1, old_allocation := "\x7b\x7d",
                 new_allocation :=
                   [{ asset_code := "XLM", order_type := "sell", current_value := 10,
                      target_value := 5, value_difference := -5, current_allocation := 1/2,
                      target_allocation := 1/4 }],
                 rebalance_type := "manual", success := true }] }) := by
  have hu : (DB.users { users := [{ id := 1, wallet_address := "W" }],
                        portfolios := [], rebalance_history := [] }).find?
      (fun u => u.wallet_address == "W")
      = some { id := 1, wallet_address := "W" } := by
    simp [List.find?]
  refine ⟨hu, ?_⟩
  have h := (execute_rebalancing_simulated
    { users := [{ id := 1, wallet_address := "W" }], portfolios := [],
      rebalance_history := [] } "W"
    [{ asset_code := "XLM", order_type := "sell", current_value := 10,
       target_value := 5, value_difference := -5, current_allocation := 1/2,
       target_allocation := 1/4 }] { id := 1, wallet_address := "W" } hu).1
  simpa using h

/-- In-place mutation of the first row matched by a query, as the ORM session
applies it. -/
def modifyFirst {α : Type} (p : α → Bool) (f : α → α) : List α → List α
  | [] => []
  | x :: xs => if p x then f x :: xs else x :: modifyFirst p f xs

/-- Deletion of the first row matched by a query. -/
def eraseFirstWhere {α : Type} (p : α → Bool) : List α → List α
  | [] => []
  | x :: xs => if p x then xs else x :: eraseFirstWhere p xs

lemma find?_modify_erase {α : Type} (p : α → Bool) (f : α → α) (l : List α) (a : α)
    (h : l.find? p = some a) :
    ∃ l₁ l₂, l = l₁ ++ a :: l₂
      ∧ modifyFirst p f l = l₁ ++ f a :: l₂
      ∧ eraseFirstWhere p l = l₁ ++ l₂ := by
  induction l with
  | nil => simp at h
  | cons x xs ih =>
    by_cases hp : p x
    · rw [List.find?_cons_of_pos _ hp, Option.some_inj] at h
      subst h
      exact ⟨[], xs, rfl, by simp [modifyFirst, hp], by simp [eraseFirstWhere, hp]⟩
    · rw [List.find?_cons_of_neg _ hp] at h
      obtain ⟨l₁, l₂, hl, hm, he⟩ := ih h
      exact ⟨x :: l₁, l₂, by rw [List.cons_append, hl],
        by simp [modifyFirst, hp, hm], by simp [eraseFirstWhere, hp, he]⟩

/-- The row update applied to an owned asset: status hidden, updated_at now. -/
def hideAsset (now : ℕ) (a : Portfolio) : Portfolio :=
  { a with status := "hidden", updated_at := now }

/-- The portfolio-table query of delete_asset: id and owner match. -/
def assetQuery (asset_id user_id : ℕ) (a : Portfolio) : Bool :=
  a.id == asset_id && a.user_id == user_id

/-- PortfolioService.delete_asset: ValueError on an invalid wallet, a missing
user or a missing asset; an owned asset is only hidden (status set to hidden,
updated_at refreshed), any other asset row is deleted from the table. -/
def delete_asset (parseOk : String → Bool) (db : DB) (wallet_address : String)
    (asset_id : ℕ) (now : ℕ) : Except String (DB × String) :=
  if validate_stellar_address parseOk wallet_address = false then
    .error "Invalid wallet address format"
  else
    match db.users.find? (fun u => u.wallet_address == wallet_address) with
    | none => .error "User not found"
    | some user =>
      match db.portfolios.find? (assetQuery asset_id user.id) with
      | none => .error "Asset not found"
      | some asset =>
        if asset.status = "owned" then
          let updated := modifyFirst (assetQuery asset_id user.id) (hideAsset now) db.portfolios
          .ok ({ db with portfolios := updated }, "Asset hidden successfully")
        else
          let updated := eraseFirstWhere (assetQuery asset_id user.id) db.portfolios
          .ok ({ db with portfolios := updated }, "Asset deleted successfully")

/-- C10: delete_asset never removes an owned asset: for a valid wallet, an
existing user and an existing asset row, an owned asset is kept in place with
only its status set to hidden and updated_at refreshed (balance,
target_allocation, asset_code and asset_issuer unchanged, all other rows
untouched), while a non-owned asset row is deleted with all other rows
untouched. -/
theorem delete_asset_spec (parseOk : String → Bool) (db : DB) (wallet_address : String)
    (asset_id now : ℕ) (user : User) (asset : Portfolio)
    (hv : validate_stellar_address parseOk wallet_address = true)
    (hu : db.users.find? (fun u => u.wallet_address == wallet_address) = some user)
    (ha : db.portfolios.find? (assetQuery asset_id user.id) = some asset) :
    (asset.status = "owned" →
      ∃ l₁ l₂, db.portfolios = l₁ ++ asset :: l₂
        ∧ delete_asset parseOk db wallet_address asset_id now
            = .ok ({ db with portfolios := l₁ ++ hideAsset now asset :: l₂ },
                "Asset hidden successfully")
        ∧ (hideAsset now asset).status = "hidden"
        ∧ (hideAsset now asset).updated_at = now
        ∧ (hideAsset now asset).balance = asset.balance
        ∧ (hideAsset now asset).target_allocation = asset.target_allocation
        ∧ (hideAsset now asset).asset_code = asset.asset_code
        ∧ (hideAsset now asset).asset_issuer = asset.asset_issuer)
    ∧ (asset.status ≠ "owned" →
      ∃ l₁ l₂, db.portfolios = l₁ ++ asset :: l₂
        ∧ delete_asset parseOk db wallet_address asset_id now
            = .ok ({ db with portfolios := l₁ ++ l₂ }, "Asset deleted successfully")) := by
  obtain ⟨l₁, l₂, hl, hm, he⟩ := find?_modify_erase
    (assetQuery asset_id user.id) (hideAsset now) db.portfolios asset ha
  constructor
  · intro hs
    refine ⟨l₁, l₂, hl, ?_, rfl, rfl, rfl, rfl, rfl, rfl⟩
    unfold delete_asset
    rw [hv]
    simp only [Bool.true_eq_false, if_false, hu, ha, if_pos hs, hm]
  · intro hs
    refine ⟨l₁, l₂, hl, ?_⟩
    unfold delete_asset
    rw [hv]
    simp only [Bool.true_eq_false, if_false, hu, ha, if_neg hs, he]

/-- A 56-character Stellar-format wallet address for the concrete database. -/
def walletW : String := "AAAAAAAAAAAAAAAAAAAAAAAAAAAAAAAAAAAAAAAAAAAAAAAAAAAAAAAA"

/-- Concrete user row for the delete_asset witness. -/
def userW : User := { id := 1, wallet_address := walletW }

/-- Concrete owned asset row for the delete_asset witness. -/
def assetW : Portfolio :=
  { id := 7, user_id := 1, asset_code := "XLM", asset_issuer := none,
    balance := 10, target_allocation := 50, status := "owned", updated_at := 0 }

/-- Concrete database for the delete_asset witness. -/
def dbW : DB := { users := [userW], portfolios := [assetW], rebalance_history := [] }

/-- Witness for C10: hiding the single owned asset of a concrete database. -/
theorem delete_asset_spec_witness :
    ∃ l₁ l₂, dbW.portfolios = l₁ ++ assetW :: l₂
      ∧ delete_asset (fun _ => true) dbW walletW 7 5
          = .ok ({ dbW with portfolios := l₁ ++ hideAsset 5 assetW :: l₂ },
              "Asset hidden successfully")
      ∧ (hideAsset 5 assetW).status = "hidden"
      ∧ (hideAsset 5 assetW).updated_at = 5
      ∧ (hideAsset 5 assetW).balance = assetW.balance
      ∧ (hideAsset 5 assetW).target_allocation = assetW.target_allocation
      ∧ (hideAsset 5 assetW).asset_code = assetW.asset_code
      ∧ (hideAsset 5 assetW).asset_issuer = assetW.asset_issuer :=
  (delete_asset_spec (fun _ => true) dbW walletW 7 5 userW assetW
    (by decide)
    (by simp [dbW, userW, walletW, List.find?])
    (by simp [dbW, assetW, userW, assetQuery, List.find?])).1 rfl
